import Mathlib

/-!
Shallow embedding of `src/pareto/case_studies/toy_case_study.py` (the
`create_model` builder) and, where the repository file is absent from `src/`,
of the loader `pareto/utilities/get_data.py` modelled from the spec.

Conventions of the embedding:
* labels are strings; numeric data are integers (the source's values are
  numbers read from a spreadsheet; the claims concern only exact sums and
  equalities, which the integer embedding captures exactly);
* a python dict passed as `df_sets` / `df_parameters` is an association list,
  and a subscript `d[k]` is `List.lookup`, with a missing key producing
  `Except.error k` (the `KeyError` carrying the missing name);
* a pyomo `Set(initialize=xs)` keeps the first occurrence of each label and
  drops later duplicates (`setInit` below);
* a pyomo `Param(..., default=0, initialize=tbl)` is the total function that
  looks the index tuple up in the sparse table and falls back to `0`.
  The embedding does not model pyomo's validation of table keys against the
  declared index sets;
* every constraint body in the source is an equality between a single
  variable reference and a sum of parameter values, i.e. a number once the
  data are fixed, so a constraint is a pair of a variable reference and the
  value its body equates it with (`EqCon`);
* pyomo's rule initializer (`Initializer` / `ScalarCallInitializer`, an
  external dependency not under `src/`): a rule function taking only the
  model argument, attached to a constraint declared over an index set, is
  invoked once per index with the model as its sole argument, so every member
  of the indexed constraint receives the same body.  This is how
  `model.e_completion_demand = Constraint(model.t, rule=DriveTimesEquationRule)`
  elaborates, `DriveTimesEquationRule` taking a single parameter.
-/

abbrev Label := String

/-- A sparse parameter table: index tuple (as a list of labels) to value. -/
abbrev PTable := List (List Label × ℤ)

/-- The `df_sets` mapping: set name to list of labels. -/
abbrev DFSets := List (String × List Label)

/-- The `df_parameters` mapping: parameter name to sparse table. -/
abbrev DFParams := List (String × PTable)

/-- Keep the labels not already seen, in order, each at its first
occurrence. -/
def setInitAux (seen : List Label) : List Label → List Label
  | [] => []
  | x :: xs => if x ∈ seen then setInitAux seen xs else x :: setInitAux (x :: seen) xs

/-- Pyomo `Set(initialize=xs)`: keep the first occurrence of each label,
drop later duplicates. -/
def setInit (l : List Label) : List Label := setInitAux [] l

/-- One-index `Param` lookup with `default=0`. -/
def param1 (tbl : PTable) (i : Label) : ℤ := (tbl.lookup [i]).getD 0

/-- Two-index `Param` lookup with `default=0`. -/
def param2 (tbl : PTable) (i j : Label) : ℤ := (tbl.lookup [i, j]).getD 0

/-- Three-index `Param` lookup with `default=0`. -/
def param3 (tbl : PTable) (i j k : Label) : ℤ := (tbl.lookup [i, j, k]).getD 0

/-- References to the variables declared by `create_model`. -/
inductive VarRef where
  | drive_times : VarRef
  | completion_demand (t : Label) : VarRef
  | flowback_rates : VarRef
  | production_rates : VarRef
  | disposal_capacity : VarRef
  | two_index_param (d : Label) : VarRef
deriving DecidableEq, Repr

/-- A constraint body of this model: the referenced variable equals the
given value of the parameter sum in the body. -/
structure EqCon where
  lhs : VarRef
  rhs : ℤ
deriving DecidableEq, Repr

/-- The sets and parameters of the model, available to the rule functions. -/
structure ModelData where
  p : List Label
  c : List Label
  a : List Label
  d : List Label
  t : List Label
  l : List Label
  p_drive_times : Label → Label → ℤ
  p_completion_demand : Label → Label → ℤ
  p_flowback_rates : Label → Label → ℤ
  p_production_rates : Label → Label → Label → ℤ
  p_initial_disposal_capacity : Label → ℤ
  p_two_index_column : Label → Label → ℤ

/-- `DriveTimesEquationRule(model)`:
`v_drive_times == sum(sum(p_drive_times[l,ll] for l in model.l) for ll in model.l)`. -/
def DriveTimesEquationRule (m : ModelData) : EqCon :=
  ⟨.drive_times, (m.l.map (fun ll => (m.l.map (fun l => m.p_drive_times l ll)).sum)).sum⟩

/-- `CompletionDemandRule(model, t)`:
`v_completion_demand[t] == sum(p_completion_demand[c,t] for c in model.c)`. -/
def CompletionDemandRule (m : ModelData) (t : Label) : EqCon :=
  ⟨.completion_demand t, (m.c.map (fun c => m.p_completion_demand c t)).sum⟩

/-- `FlowBackRatesRule(model)`:
`v_flowback_rates == sum(sum(p_flowback_rates[c,t] for c in model.c) for t in model.t)`. -/
def FlowBackRatesRule (m : ModelData) : EqCon :=
  ⟨.flowback_rates, (m.t.map (fun t => (m.c.map (fun c => m.p_flowback_rates c t)).sum)).sum⟩

/-- `ProductionRatesRule(model)`:
`v_production_rates == sum(sum(sum(p_production_rates[p,a,t] for p in model.p) for a in model.a) for t in model.t)`. -/
def ProductionRatesRule (m : ModelData) : EqCon :=
  ⟨.production_rates,
    (m.t.map (fun t => (m.a.map (fun a => (m.p.map (fun p => m.p_production_rates p a t)).sum)).sum)).sum⟩

/-- `DisposalCapacityRule(model)`:
`v_disposal_capacity == sum(p_initial_disposal_capacity[d] for d in model.d)`. -/
def DisposalCapacityRule (m : ModelData) : EqCon :=
  ⟨.disposal_capacity, (m.d.map (fun d => m.p_initial_disposal_capacity d)).sum⟩

/-- `TwoIndexColumnParameterRule(model, d)`:
`v_two_index_param[d] == sum(p_two_index_column[d,dd] for dd in model.d)`. -/
def TwoIndexColumnParameterRule (m : ModelData) (d : Label) : EqCon :=
  ⟨.two_index_param d, (m.d.map (fun dd => m.p_two_index_column d dd)).sum⟩

/-- The model object returned by `create_model`: sets, parameters, and the
six registered constraints (indexed constraints carry their index). -/
structure Model extends ModelData where
  e_drive_times : EqCon
  e_completion_demand : List (Label × EqCon)
  e_flowback_rates : EqCon
  e_production_rates : EqCon
  e_disposal_capacity : EqCon
  e_two_index_column_param : List (Label × EqCon)

/-- All constraint members of the model, in declaration order. -/
def Model.constraints (m : Model) : List EqCon :=
  m.e_drive_times :: m.e_completion_demand.map Prod.snd
    ++ m.e_flowback_rates :: m.e_production_rates :: m.e_disposal_capacity
    :: m.e_two_index_column_param.map Prod.snd

/-- The model construction performed once all eleven dictionary lookups have
succeeded (arguments in the order the source reads them).  The constraints
mirror the registrations in the source: `e_completion_demand`,
`e_flowback_rates` and `e_production_rates` are registered with
`rule=DriveTimesEquationRule`; the indexed ones receive, per pyomo's
rule-initializer semantics for a one-argument rule, one copy of
`DriveTimesEquationRule(model)` per index. -/
def buildModel (pads comps tanks swds times : List Label)
    (dt cd fb pr idc tic : PTable) : Model :=
  let pS := setInit pads
  let cS := setInit comps
  let aS := setInit tanks
  let dS := setInit swds
  let tS := setInit times
  let lS := setInit (pS ++ cS ++ aS ++ dS)
  let data : ModelData :=
    { p := pS, c := cS, a := aS, d := dS, t := tS, l := lS
      p_drive_times := fun i j => param2 dt i j
      p_completion_demand := fun i j => param2 cd i j
      p_flowback_rates := fun i j => param2 fb i j
      p_production_rates := fun i j k => param3 pr i j k
      p_initial_disposal_capacity := fun i => param1 idc i
      p_two_index_column := fun i j => param2 tic i j }
  { toModelData := data
    e_drive_times := DriveTimesEquationRule data
    e_completion_demand := tS.map (fun tt => (tt, DriveTimesEquationRule data))
    e_flowback_rates := DriveTimesEquationRule data
    e_production_rates := DriveTimesEquationRule data
    e_disposal_capacity := DisposalCapacityRule data
    e_two_index_column_param := dS.map (fun dd => (dd, TwoIndexColumnParameterRule data dd)) }

/-- `create_model(df_sets, df_parameters)`.  Dictionary subscripts are
performed in source order (sets `p, c, a, d, t`, then the six parameter
tables); the first missing key aborts with that key, as a python `KeyError`
would. -/
def create_model (df_sets : DFSets) (df_parameters : DFParams) : Except String Model :=
  match df_sets.lookup "ProductionPads" with
  | none => .error "ProductionPads"
  | some pads =>
  match df_sets.lookup "CompletionsPads" with
  | none => .error "CompletionsPads"
  | some comps =>
  match df_sets.lookup "ProductionTanks" with
  | none => .error "ProductionTanks"
  | some tanks =>
  match df_sets.lookup "SWDSites" with
  | none => .error "SWDSites"
  | some swds =>
  match df_sets.lookup "TimePeriods" with
  | none => .error "TimePeriods"
  | some times =>
  match df_parameters.lookup "DriveTimes" with
  | none => .error "DriveTimes"
  | some dt =>
  match df_parameters.lookup "CompletionsDemand" with
  | none => .error "CompletionsDemand"
  | some cd =>
  match df_parameters.lookup "FlowbackRates" with
  | none => .error "FlowbackRates"
  | some fb =>
  match df_parameters.lookup "ProductionRates" with
  | none => .error "ProductionRates"
  | some pr =>
  match df_parameters.lookup "InitialDisposalCapacity" with
  | none => .error "InitialDisposalCapacity"
  | some idc =>
  match df_parameters.lookup "TwoIndexColumnParam" with
  | none => .error "TwoIndexColumnParam"
  | some tic =>
  .ok (buildModel pads comps tanks swds times dt cd fb pr idc tic)

/-- An assignment of values to the model's variables. -/
structure Assignment where
  v_drive_times : ℤ
  v_completion_demand : Label → ℤ
  v_flowback_rates : ℤ
  v_production_rates : ℤ
  v_disposal_capacity : ℤ
  v_two_index_param : Label → ℤ

/-- Value of a variable reference under an assignment. -/
def Assignment.eval (σ : Assignment) : VarRef → ℤ
  | .drive_times => σ.v_drive_times
  | .completion_demand t => σ.v_completion_demand t
  | .flowback_rates => σ.v_flowback_rates
  | .production_rates => σ.v_production_rates
  | .disposal_capacity => σ.v_disposal_capacity
  | .two_index_param d => σ.v_two_index_param d

/-- A constraint member evaluates to true under the assignment. -/
def satEq (σ : Assignment) (con : EqCon) : Prop := σ.eval con.lhs = con.rhs

instance (σ : Assignment) (con : EqCon) : Decidable (satEq σ con) := by
  unfold satEq; infer_instance

/-- Every constraint of the model evaluates to true under the assignment. -/
def Model.satisfiesAll (m : Model) (σ : Assignment) : Prop :=
  ∀ con ∈ m.constraints, satEq σ con

instance (m : Model) (σ : Assignment) : Decidable (m.satisfiesAll σ) := by
  unfold Model.satisfiesAll; infer_instance

/-- The assignment that gives every declared variable the exact aggregate of
the parameter values its constraint's specification references:
`v_drive_times` the double sum of `p_drive_times` over `l × l`,
`v_completion_demand[t]` the sum of `p_completion_demand[c,t]` over `c`,
`v_flowback_rates` the sum of `p_flowback_rates` over `c × t`,
`v_production_rates` the sum of `p_production_rates` over `p × a × t`,
`v_disposal_capacity` the sum of `p_initial_disposal_capacity` over `d`, and
`v_two_index_param[d]` the sum of `p_two_index_column[d,dd]` over `dd`. -/
def specAssignment (m : ModelData) : Assignment where
  v_drive_times := (m.l.map (fun ll => (m.l.map (fun l => m.p_drive_times l ll)).sum)).sum
  v_completion_demand := fun t => (m.c.map (fun c => m.p_completion_demand c t)).sum
  v_flowback_rates := (m.t.map (fun t => (m.c.map (fun c => m.p_flowback_rates c t)).sum)).sum
  v_production_rates :=
    (m.t.map (fun t => (m.a.map (fun a => (m.p.map (fun p => m.p_production_rates p a t)).sum)).sum)).sum
  v_disposal_capacity := (m.d.map (fun d => m.p_initial_disposal_capacity d)).sum
  v_two_index_param := fun d => (m.d.map (fun dd => m.p_two_index_column d dd)).sum

/-- The assignment modified at `v_flowback_rates` and `v_production_rates`
only. -/
def updateFP (σ : Assignment) (q1 q2 : ℤ) : Assignment :=
  { σ with v_flowback_rates := q1, v_production_rates := q2 }

/-- The set names `create_model` reads from `df_sets`. -/
def setNames : List String :=
  ["ProductionPads", "CompletionsPads", "ProductionTanks", "SWDSites", "TimePeriods"]

/-- The parameter names `create_model` reads from `df_parameters`. -/
def paramNames : List String :=
  ["DriveTimes", "CompletionsDemand", "FlowbackRates", "ProductionRates",
   "InitialDisposalCapacity", "TwoIndexColumnParam"]

/-- The constraint bodies claim C2 describes, following the spec's words:
each of the three constraints aggregates its own referenced parameter via the
same-named rule function. -/
def claimC2Bodies (m : Model) : Prop :=
  m.e_completion_demand = m.t.map (fun tt => (tt, CompletionDemandRule m.toModelData tt))
  ∧ m.e_flowback_rates = FlowBackRatesRule m.toModelData
  ∧ m.e_production_rates = ProductionRatesRule m.toModelData

/-! ### Concrete scenario inputs -/

/-- `df_sets` of the scenario in the spec (§8) and claim C3. -/
def dfSetsC3 : DFSets :=
  [("ProductionPads", ["P1"]), ("CompletionsPads", ["C1"]), ("SWDSites", ["D1"]),
   ("ProductionTanks", ["A1"]), ("TimePeriods", ["T1"])]

/-- `df_parameters` of the scenario in claim C3: `InitialDisposalCapacity`
maps `(D1)` to `50`, every other table is empty. -/
def dfParamsC3 : DFParams :=
  [("DriveTimes", []), ("CompletionsDemand", []), ("FlowbackRates", []),
   ("ProductionRates", []), ("InitialDisposalCapacity", [(["D1"], 50)]),
   ("TwoIndexColumnParam", [])]

/-- The model built from the C3 scenario inputs. -/
def mC3 : Model := buildModel ["P1"] ["C1"] ["A1"] ["D1"] ["T1"] [] [] [] [] [(["D1"], 50)] []

/-- `df_parameters` with `CompletionsDemand` mapping `(C1, T1)` to `7` and
every other table empty. -/
def dfParamsC2 : DFParams :=
  [("DriveTimes", []), ("CompletionsDemand", [(["C1", "T1"], 7)]), ("FlowbackRates", []),
   ("ProductionRates", []), ("InitialDisposalCapacity", []), ("TwoIndexColumnParam", [])]

/-- The model built from `dfSetsC3` and `dfParamsC2`. -/
def mC2 : Model := buildModel ["P1"] ["C1"] ["A1"] ["D1"] ["T1"] [] [(["C1", "T1"], 7)] [] [] [] []

/-- The all-zero assignment. -/
def zeroAssignment : Assignment :=
  ⟨0, fun _ => 0, 0, 0, 0, fun _ => 0⟩

/-- The assignment that is zero except `v_disposal_capacity = 50`. -/
def disposalAssignment : Assignment :=
  ⟨0, fun _ => 0, 0, 0, 50, fun _ => 0⟩

/-! ### The data loader, modelled from the spec

The repository's loader `pareto/utilities/get_data.py` is not included under
`src/` (only its caller `toy_case_study.py` is), so it is modelled from the
spec (§4.1): given a file, a list of set-tab names and a list of
parameter-tab names, read one spreadsheet tab per name into the two
mappings, failing with a `DataFormatError` if a named tab is absent or
malformed. -/

/-- A spreadsheet tab: a well-formed set tab, a well-formed parameter tab,
or a malformed tab. -/
inductive Tab where
  | setTab (labels : List Label) : Tab
  | paramTab (table : PTable) : Tab
  | malformed : Tab

/-- A spreadsheet file: named tabs. -/
abbrev Spreadsheet := List (String × Tab)

/-- Whether the named tab exists and is a well-formed set tab. -/
def goodSetTab (file : Spreadsheet) (n : String) : Bool :=
  match file.lookup n with
  | some (.setTab _) => true
  | _ => false

/-- Whether the named tab exists and is a well-formed parameter tab. -/
def goodParamTab (file : Spreadsheet) (n : String) : Bool :=
  match file.lookup n with
  | some (.paramTab _) => true
  | _ => false

/-- Modelled from the spec: read one set tab per requested name, stopping
with a `DataFormatError` (carrying the offending tab name) at the first
absent or malformed tab. -/
def readSetTabs (file : Spreadsheet) : List String → Except String DFSets
  | [] => .ok []
  | n :: ns =>
    match file.lookup n with
    | some (.setTab ls) => (readSetTabs file ns).map (fun rest => (n, ls) :: rest)
    | _ => .error n

/-- Modelled from the spec: read one parameter tab per requested name,
stopping with a `DataFormatError` at the first absent or malformed tab. -/
def readParamTabs (file : Spreadsheet) : List String → Except String DFParams
  | [] => .ok []
  | n :: ns =>
    match file.lookup n with
    | some (.paramTab tbl) => (readParamTabs file ns).map (fun rest => (n, tbl) :: rest)
    | _ => .error n

/-- Modelled from the spec: `get_data(fpath, set_list, parameter_list)`
returns the set mapping and the parameter mapping, or raises a
`DataFormatError` (here `Except.error` carrying the offending tab name) if a
requested tab is absent or malformed; on error no partial mapping is
returned. -/
def get_data (file : Spreadsheet) (set_list parameter_list : List String) :
    Except String (DFSets × DFParams) :=
  match readSetTabs file set_list with
  | .error n => .error n
  | .ok dfS =>
    match readParamTabs file parameter_list with
    | .error n => .error n
    | .ok dfP => .ok (dfS, dfP)

/-! ### State-passing variant of `create_model`

Used for the frame property: every access the source makes to its two
arguments is a dictionary subscript, modelled by `dictRead`, whose python
semantics (`__getitem__`) returns the value — or raises `KeyError` — and
leaves the dictionary unchanged.  `create_model_st` threads the dictionary
states through the eleven subscripts in source order and returns them along
with the result. -/

/-- Python `d[k]`: the looked-up value (or `KeyError k`) together with the
dictionary state after the operation. -/
def dictRead {α : Type} (d : List (String × α)) (k : String) :
    Except String (α × List (String × α)) :=
  match d.lookup k with
  | some v => .ok (v, d)
  | none => .error k

/-- `create_model` with the states of `df_sets` and `df_parameters` threaded
through every dictionary access and returned alongside the result. -/
def create_model_st (dfS0 : DFSets) (dfP0 : DFParams) :
    Except String Model × DFSets × DFParams :=
  match dictRead dfS0 "ProductionPads" with
  | .error e => (.error e, dfS0, dfP0)
  | .ok (pads, dfS1) =>
  match dictRead dfS1 "CompletionsPads" with
  | .error e => (.error e, dfS1, dfP0)
  | .ok (comps, dfS2) =>
  match dictRead dfS2 "ProductionTanks" with
  | .error e => (.error e, dfS2, dfP0)
  | .ok (tanks, dfS3) =>
  match dictRead dfS3 "SWDSites" with
  | .error e => (.error e, dfS3, dfP0)
  | .ok (swds, dfS4) =>
  match dictRead dfS4 "TimePeriods" with
  | .error e => (.error e, dfS4, dfP0)
  | .ok (times, dfS5) =>
  match dictRead dfP0 "DriveTimes" with
  | .error e => (.error e, dfS5, dfP0)
  | .ok (dt, dfP1) =>
  match dictRead dfP1 "CompletionsDemand" with
  | .error e => (.error e, dfS5, dfP1)
  | .ok (cd, dfP2) =>
  match dictRead dfP2 "FlowbackRates" with
  | .error e => (.error e, dfS5, dfP2)
  | .ok (fb, dfP3) =>
  match dictRead dfP3 "ProductionRates" with
  | .error e => (.error e, dfS5, dfP3)
  | .ok (pr, dfP4) =>
  match dictRead dfP4 "InitialDisposalCapacity" with
  | .error e => (.error e, dfS5, dfP4)
  | .ok (idc, dfP5) =>
  match dictRead dfP5 "TwoIndexColumnParam" with
  | .error e => (.error e, dfS5, dfP5)
  | .ok (tic, dfP6) =>
  (.ok (buildModel pads comps tanks swds times dt cd fb pr idc tic), dfS5, dfP6)

/-! ### Helper lemmas about the embedding -/

theorem mem_setInitAux {a : Label} :
    ∀ {l seen : List Label}, a ∈ setInitAux seen l ↔ a ∈ l ∧ a ∉ seen := by
  intro l
  induction l with
  | nil => intro seen; simp [setInitAux]
  | cons x xs ih =>
    intro seen
    by_cases hx : x ∈ seen
    · simp only [setInitAux, if_pos hx, ih, List.mem_cons]
      constructor
      · rintro ⟨ha, hs⟩; exact ⟨Or.inr ha, hs⟩
      · rintro ⟨rfl | ha, hs⟩
        · exact absurd hx hs
        · exact ⟨ha, hs⟩
    · simp only [setInitAux, if_neg hx, List.mem_cons, ih]
      by_cases hax : a = x
      · subst hax; simp [hx]
      · simp [hax]

theorem setInitAux_nodup : ∀ (l seen : List Label), (setInitAux seen l).Nodup := by
  intro l
  induction l with
  | nil => intro seen; simp [setInitAux]
  | cons x xs ih =>
    intro seen
    by_cases hx : x ∈ seen
    · simpa [setInitAux, hx] using ih seen
    · simp only [setInitAux, if_neg hx, List.nodup_cons, ih, and_true, mem_setInitAux]
      simp

theorem mem_setInit {a : Label} {l : List Label} : a ∈ setInit l ↔ a ∈ l := by
  simp [setInit, mem_setInitAux]

theorem setInit_nodup (l : List Label) : (setInit l).Nodup := setInitAux_nodup l []

/-- Inversion for a successful `create_model` call: the returned model is
`buildModel` applied to the eleven looked-up values. -/
theorem create_model_ok_shape {dfS : DFSets} {dfP : DFParams} {m : Model}
    (h : create_model dfS dfP = Except.ok m) :
    ∃ pads comps tanks swds times dt cd fb pr idc tic,
      m = buildModel pads comps tanks swds times dt cd fb pr idc tic := by
  unfold create_model at h
  repeat' split at h
  all_goals simp at h
  exact ⟨_, _, _, _, _, _, _, _, _, _, _, h.symm⟩

/-- Every constraint member of a built model is the drive-times equation, the
disposal-capacity equation, or a two-index-column equation. -/
theorem mem_buildModel_constraints {con : EqCon}
    (pads comps tanks swds times : List Label) (dt cd fb pr idc tic : PTable)
    (h : con ∈ (buildModel pads comps tanks swds times dt cd fb pr idc tic).constraints) :
    con = DriveTimesEquationRule (buildModel pads comps tanks swds times dt cd fb pr idc tic).toModelData
    ∨ con = DisposalCapacityRule (buildModel pads comps tanks swds times dt cd fb pr idc tic).toModelData
    ∨ ∃ dd, con = TwoIndexColumnParameterRule
        (buildModel pads comps tanks swds times dt cd fb pr idc tic).toModelData dd := by
  simp only [Model.constraints, buildModel, List.mem_cons, List.mem_append, List.mem_map,
    Prod.exists] at h
  rcases h with (rfl | ⟨a, b, ⟨tt, _, heq⟩, rfl⟩) | rfl
    | (rfl | rfl | ⟨a, b, ⟨dd, _, heq⟩, rfl⟩)
  · exact Or.inl rfl
  · cases heq; exact Or.inl rfl
  · exact Or.inl rfl
  · exact Or.inl rfl
  · exact Or.inr (Or.inl rfl)
  · cases heq; exact Or.inr (Or.inr ⟨_, rfl⟩)

/-- The specification assignment satisfies the drive-times equation. -/
theorem satEq_spec_drive (md : ModelData) :
    satEq (specAssignment md) (DriveTimesEquationRule md) := rfl

/-- The specification assignment satisfies the disposal-capacity equation. -/
theorem satEq_spec_disposal (md : ModelData) :
    satEq (specAssignment md) (DisposalCapacityRule md) := rfl

/-- The specification assignment satisfies every two-index-column equation. -/
theorem satEq_spec_two_index (md : ModelData) (dd : Label) :
    satEq (specAssignment md) (TwoIndexColumnParameterRule md dd) := rfl

/-- If some requested set tab is absent or malformed, reading the set tabs
fails. -/
theorem readSetTabs_error {file : Spreadsheet} {ns : List String}
    (h : ∃ n ∈ ns, goodSetTab file n = false) :
    ∃ e, readSetTabs file ns = Except.error e := by
  induction ns with
  | nil => simp at h
  | cons n ns ih =>
    rcases h with ⟨x, hx, hbad⟩
    rcases List.mem_cons.mp hx with rfl | hmem
    · cases hl : file.lookup x with
      | none => exact ⟨x, by simp [readSetTabs, hl]⟩
      | some tab =>
        cases tab with
        | setTab ls => simp [goodSetTab, hl] at hbad
        | paramTab tbl => exact ⟨x, by simp [readSetTabs, hl]⟩
        | malformed => exact ⟨x, by simp [readSetTabs, hl]⟩
    · cases hl : file.lookup n with
      | none => exact ⟨n, by simp [readSetTabs, hl]⟩
      | some tab =>
        cases tab with
        | setTab ls =>
          obtain ⟨e, he⟩ := ih ⟨x, hmem, hbad⟩
          exact ⟨e, by simp [readSetTabs, hl, he, Except.map]⟩
        | paramTab tbl => exact ⟨n, by simp [readSetTabs, hl]⟩
        | malformed => exact ⟨n, by simp [readSetTabs, hl]⟩

/-- If some requested parameter tab is absent or malformed, reading the
parameter tabs fails. -/
theorem readParamTabs_error {file : Spreadsheet} {ns : List String}
    (h : ∃ n ∈ ns, goodParamTab file n = false) :
    ∃ e, readParamTabs file ns = Except.error e := by
  induction ns with
  | nil => simp at h
  | cons n ns ih =>
    rcases h with ⟨x, hx, hbad⟩
    rcases List.mem_cons.mp hx with rfl | hmem
    · cases hl : file.lookup x with
      | none => exact ⟨x, by simp [readParamTabs, hl]⟩
      | some tab =>
        cases tab with
        | setTab ls => exact ⟨x, by simp [readParamTabs, hl]⟩
        | paramTab tbl => simp [goodParamTab, hl] at hbad
        | malformed => exact ⟨x, by simp [readParamTabs, hl]⟩
    · cases hl : file.lookup n with
      | none => exact ⟨n, by simp [readParamTabs, hl]⟩
      | some tab =>
        cases tab with
        | setTab ls => exact ⟨n, by simp [readParamTabs, hl]⟩
        | paramTab tbl =>
          obtain ⟨e, he⟩ := ih ⟨x, hmem, hbad⟩
          exact ⟨e, by simp [readParamTabs, hl, he, Except.map]⟩
        | malformed => exact ⟨n, by simp [readParamTabs, hl]⟩

/-! ### Claim theorems -/

/-- Claim C1: for every pair of input mappings for which `create_model`
returns a model, every constraint of the returned model evaluates to true
when each variable is assigned the exact aggregate of the parameter values
its constraint's specification references (`specAssignment`). -/
theorem claim_C1 (dfS : DFSets) (dfP : DFParams) (m : Model)
    (h : create_model dfS dfP = Except.ok m) :
    m.satisfiesAll (specAssignment m.toModelData) := by
  obtain ⟨pads, comps, tanks, swds, times, dt, cd, fb, pr, idc, tic, rfl⟩ :=
    create_model_ok_shape h
  intro con hcon
  rcases mem_buildModel_constraints pads comps tanks swds times dt cd fb pr idc tic hcon
    with rfl | rfl | ⟨dd, rfl⟩
  · exact satEq_spec_drive _
  · exact satEq_spec_disposal _
  · exact satEq_spec_two_index _ dd

/-- Witness for C1 at the concrete C3-scenario input. -/
theorem claim_C1_witness :
    create_model dfSetsC3 dfParamsC3 = Except.ok mC3
      ∧ mC3.satisfiesAll (specAssignment mC3.toModelData) :=
  ⟨rfl, claim_C1 dfSetsC3 dfParamsC3 mC3 rfl⟩

/-- Claim C2 (amended): in every model returned by `create_model`,
`e_drive_times`, `e_disposal_capacity` and `e_two_index_column_param`
aggregate their referenced parameter as specified, but `e_completion_demand`,
`e_flowback_rates` and `e_production_rates` — registered with
`rule=DriveTimesEquationRule` — each carry the drive-times body instead of
the aggregation of their own referenced parameter. -/
theorem claim_C2 (dfS : DFSets) (dfP : DFParams) (m : Model)
    (h : create_model dfS dfP = Except.ok m) :
    m.e_drive_times = DriveTimesEquationRule m.toModelData
    ∧ m.e_disposal_capacity = DisposalCapacityRule m.toModelData
    ∧ m.e_two_index_column_param
        = m.d.map (fun dd => (dd, TwoIndexColumnParameterRule m.toModelData dd))
    ∧ m.e_completion_demand = m.t.map (fun tt => (tt, DriveTimesEquationRule m.toModelData))
    ∧ m.e_flowback_rates = DriveTimesEquationRule m.toModelData
    ∧ m.e_production_rates = DriveTimesEquationRule m.toModelData := by
  obtain ⟨pads, comps, tanks, swds, times, dt, cd, fb, pr, idc, tic, rfl⟩ :=
    create_model_ok_shape h
  exact ⟨rfl, rfl, rfl, rfl, rfl, rfl⟩

/-- Witness for C2 (amended) at the concrete input. -/
theorem claim_C2_witness :
    create_model dfSetsC3 dfParamsC2 = Except.ok mC2
      ∧ mC2.e_completion_demand
          = mC2.t.map (fun tt => (tt, DriveTimesEquationRule mC2.toModelData)) :=
  ⟨rfl, (claim_C2 dfSetsC3 dfParamsC2 mC2 rfl).2.2.2.1⟩

/-- Counterexample to C2 as stated: on the concrete input whose
`CompletionsDemand` table maps `(C1, T1)` to `7`, the built model's
constraints do not take the claimed form — `e_completion_demand` does not
assert `v_completion_demand[T1]` equal to the sum of the completion demand
(and likewise for the other two mis-registered constraints). -/
theorem claim_C2_counterexample :
    create_model dfSetsC3 dfParamsC2 = Except.ok mC2 ∧ ¬ claimC2Bodies mC2 := by
  refine ⟨rfl, ?_⟩
  intro hcl
  have h1 := hcl.1
  rw [show mC2.e_completion_demand
        = [("T1", (⟨.drive_times, 0⟩ : EqCon))] from rfl,
      show mC2.t.map (fun tt => (tt, CompletionDemandRule mC2.toModelData tt))
        = [("T1", (⟨.completion_demand "T1", 7⟩ : EqCon))] from by decide] at h1
  simp at h1

/-- Claim C3: on the concrete scenario input — sets `{P1}`, `{C1}`, `{D1}`,
`{A1}`, `{T1}` and `InitialDisposalCapacity` mapping `(D1)` to `50`, all
other tables empty — `create_model` returns a model whose
`e_disposal_capacity` requires exactly `v_disposal_capacity == 50`. -/
theorem claim_C3 :
    create_model dfSetsC3 dfParamsC3 = Except.ok mC3
    ∧ mC3.e_disposal_capacity = ⟨.disposal_capacity, 50⟩
    ∧ ∀ σ : Assignment, satEq σ mC3.e_disposal_capacity ↔ σ.v_disposal_capacity = 50 :=
  ⟨rfl, by decide, fun σ => Iff.rfl⟩

/-- Counterexample to C4 as stated: the concrete scenario input has a
non-empty `TimePeriods`, yet `create_model` returns a model (no `TypeError`
is raised while constructing `e_completion_demand`). -/
theorem claim_C4_counterexample :
    dfSetsC3.lookup "TimePeriods" = some ["T1"]
    ∧ create_model dfSetsC3 dfParamsC3 = Except.ok mC3 := ⟨rfl, rfl⟩

/-- Claim C4 (amended): it is not the case that every input with a
non-empty `TimePeriods` makes `create_model` raise a `TypeError` while
constructing `e_completion_demand`: on the concrete scenario input (all
names present, tables drawn from the declared sets, `TimePeriods = {T1}`)
`create_model` returns a model — pyomo's rule initializer invokes the
one-argument `DriveTimesEquationRule` with the model as its sole argument
once per index, so `e_completion_demand` holds one copy of the drive-times
equation for the period `T1`. -/
theorem claim_C4 :
    dfSetsC3.lookup "TimePeriods" = some ["T1"]
    ∧ create_model dfSetsC3 dfParamsC3 = Except.ok mC3
    ∧ mC3.e_completion_demand = [("T1", DriveTimesEquationRule mC3.toModelData)] :=
  ⟨rfl, rfl, rfl⟩

/-- Claim C5: in every model built by `create_model`, the constraints
`e_completion_demand`, `e_flowback_rates` and `e_production_rates` are
registered with `rule=DriveTimesEquationRule`, so each carries the body of
`DriveTimesEquationRule` — `v_drive_times` equals the double sum of
`p_drive_times` over `model.l × model.l` — and not the body of its
same-named rule function. -/
theorem claim_C5 (dfS : DFSets) (dfP : DFParams) (m : Model)
    (h : create_model dfS dfP = Except.ok m) :
    (m.e_completion_demand = m.t.map (fun tt => (tt, DriveTimesEquationRule m.toModelData))
      ∧ m.e_flowback_rates = DriveTimesEquationRule m.toModelData
      ∧ m.e_production_rates = DriveTimesEquationRule m.toModelData)
    ∧ DriveTimesEquationRule m.toModelData
        = ⟨.drive_times, (m.l.map (fun ll => (m.l.map (fun l => m.p_drive_times l ll)).sum)).sum⟩
    ∧ (∀ pc ∈ m.e_completion_demand, pc.2 ≠ CompletionDemandRule m.toModelData pc.1)
    ∧ m.e_flowback_rates ≠ FlowBackRatesRule m.toModelData
    ∧ m.e_production_rates ≠ ProductionRatesRule m.toModelData := by
  obtain ⟨pads, comps, tanks, swds, times, dt, cd, fb, pr, idc, tic, rfl⟩ :=
    create_model_ok_shape h
  refine ⟨⟨rfl, rfl, rfl⟩, rfl, ?_, ?_, ?_⟩
  · intro pc hpc heq
    simp only [buildModel, List.mem_map] at hpc
    obtain ⟨tt, _, rfl⟩ := hpc
    exact VarRef.noConfusion (congrArg EqCon.lhs heq)
  · intro heq
    exact VarRef.noConfusion (congrArg EqCon.lhs heq)
  · intro heq
    exact VarRef.noConfusion (congrArg EqCon.lhs heq)

/-- Witness for C5 at the concrete scenario input. -/
theorem claim_C5_witness :
    create_model dfSetsC3 dfParamsC3 = Except.ok mC3
    ∧ mC3.e_flowback_rates = DriveTimesEquationRule mC3.toModelData
    ∧ mC3.e_flowback_rates ≠ FlowBackRatesRule mC3.toModelData :=
  ⟨rfl, (claim_C5 dfSetsC3 dfParamsC3 mC3 rfl).1.2.1,
    (claim_C5 dfSetsC3 dfParamsC3 mC3 rfl).2.2.2.1⟩

/-- Claim C6: in every model returned by `create_model`, the set `l` has no
duplicate labels and contains exactly the labels of `p`, `c`, `a` and `d`. -/
theorem claim_C6 (dfS : DFSets) (dfP : DFParams) (m : Model)
    (h : create_model dfS dfP = Except.ok m) :
    m.l.Nodup ∧ ∀ x : Label, x ∈ m.l ↔ (x ∈ m.p ∨ x ∈ m.c ∨ x ∈ m.a ∨ x ∈ m.d) := by
  obtain ⟨pads, comps, tanks, swds, times, dt, cd, fb, pr, idc, tic, rfl⟩ :=
    create_model_ok_shape h
  constructor
  · exact setInit_nodup _
  · intro x
    simp [buildModel, mem_setInit, List.mem_append, or_assoc]

/-- Witness for C6 at the concrete scenario input. -/
theorem claim_C6_witness :
    mC3.l.Nodup ∧ ("D1" ∈ mC3.l ↔ ("D1" ∈ mC3.p ∨ "D1" ∈ mC3.c ∨ "D1" ∈ mC3.a ∨ "D1" ∈ mC3.d)) :=
  ⟨(claim_C6 dfSetsC3 dfParamsC3 mC3 rfl).1, (claim_C6 dfSetsC3 dfParamsC3 mC3 rfl).2 "D1"⟩

/-- Claim C7: whenever one of the five set names is absent from `df_sets` or
one of the six parameter names is absent from `df_parameters`,
`create_model` fails with a `KeyError`-equivalent carrying a missing name
and returns no model. -/
theorem claim_C7 (dfS : DFSets) (dfP : DFParams)
    (h : (∃ n ∈ setNames, dfS.lookup n = none) ∨ ∃ n ∈ paramNames, dfP.lookup n = none) :
    ∃ k, create_model dfS dfP = Except.error k
      ∧ ((k ∈ setNames ∧ dfS.lookup k = none) ∨ (k ∈ paramNames ∧ dfP.lookup k = none)) := by
  cases h1 : dfS.lookup "ProductionPads" with
  | none => exact ⟨"ProductionPads", by simp [create_model, h1], Or.inl ⟨by decide, h1⟩⟩
  | some pads =>
  cases h2 : dfS.lookup "CompletionsPads" with
  | none => exact ⟨"CompletionsPads", by simp [create_model, h1, h2], Or.inl ⟨by decide, h2⟩⟩
  | some comps =>
  cases h3 : dfS.lookup "ProductionTanks" with
  | none =>
    exact ⟨"ProductionTanks", by simp [create_model, h1, h2, h3], Or.inl ⟨by decide, h3⟩⟩
  | some tanks =>
  cases h4 : dfS.lookup "SWDSites" with
  | none =>
    exact ⟨"SWDSites", by simp [create_model, h1, h2, h3, h4], Or.inl ⟨by decide, h4⟩⟩
  | some swds =>
  cases h5 : dfS.lookup "TimePeriods" with
  | none =>
    exact ⟨"TimePeriods", by simp [create_model, h1, h2, h3, h4, h5], Or.inl ⟨by decide, h5⟩⟩
  | some times =>
  cases h6 : dfP.lookup "DriveTimes" with
  | none =>
    exact ⟨"DriveTimes", by simp [create_model, h1, h2, h3, h4, h5, h6],
      Or.inr ⟨by decide, h6⟩⟩
  | some dt =>
  cases h7 : dfP.lookup "CompletionsDemand" with
  | none =>
    exact ⟨"CompletionsDemand", by simp [create_model, h1, h2, h3, h4, h5, h6, h7],
      Or.inr ⟨by decide, h7⟩⟩
  | some cd =>
  cases h8 : dfP.lookup "FlowbackRates" with
  | none =>
    exact ⟨"FlowbackRates", by simp [create_model, h1, h2, h3, h4, h5, h6, h7, h8],
      Or.inr ⟨by decide, h8⟩⟩
  | some fb =>
  cases h9 : dfP.lookup "ProductionRates" with
  | none =>
    exact ⟨"ProductionRates", by simp [create_model, h1, h2, h3, h4, h5, h6, h7, h8, h9],
      Or.inr ⟨by decide, h9⟩⟩
  | some pr =>
  cases h10 : dfP.lookup "InitialDisposalCapacity" with
  | none =>
    exact ⟨"InitialDisposalCapacity",
      by simp [create_model, h1, h2, h3, h4, h5, h6, h7, h8, h9, h10],
      Or.inr ⟨by decide, h10⟩⟩
  | some idc =>
  cases h11 : dfP.lookup "TwoIndexColumnParam" with
  | none =>
    exact ⟨"TwoIndexColumnParam",
      by simp [create_model, h1, h2, h3, h4, h5, h6, h7, h8, h9, h10, h11],
      Or.inr ⟨by decide, h11⟩⟩
  | some tic =>
    exfalso
    rcases h with ⟨n, hn, hnone⟩ | ⟨n, hn, hnone⟩ <;>
      fin_cases hn <;> simp_all

/-- Witness for C7: `df_sets` lacking `TimePeriods`. -/
theorem claim_C7_witness :
    ∃ k, create_model
        [("ProductionPads", ["P1"]), ("CompletionsPads", ["C1"]), ("SWDSites", ["D1"]),
         ("ProductionTanks", ["A1"])] dfParamsC3 = Except.error k
      ∧ ((k ∈ setNames
            ∧ List.lookup k
                [("ProductionPads", ["P1"]), ("CompletionsPads", ["C1"]), ("SWDSites", ["D1"]),
                 ("ProductionTanks", ["A1"])] = none)
          ∨ (k ∈ paramNames ∧ dfParamsC3.lookup k = none)) :=
  claim_C7 _ _ (Or.inl ⟨"TimePeriods", by decide, rfl⟩)

/-- Claim C8 (spec-modelled, the loader is absent from `src/`): whenever one
of the requested set-tab or parameter-tab names is absent from the
spreadsheet or its tab is malformed, `get_data` fails with a
`DataFormatError` and returns no (partial) set or parameter mappings. -/
theorem claim_C8 (file : Spreadsheet) (set_list parameter_list : List String)
    (h : (∃ n ∈ set_list, goodSetTab file n = false)
        ∨ ∃ n ∈ parameter_list, goodParamTab file n = false) :
    (∃ e, get_data file set_list parameter_list = Except.error e)
    ∧ ∀ out, get_data file set_list parameter_list ≠ Except.ok out := by
  have hmain : ∃ e, get_data file set_list parameter_list = Except.error e := by
    rcases h with hset | hparam
    · obtain ⟨e, he⟩ := readSetTabs_error hset
      exact ⟨e, by simp [get_data, he]⟩
    · obtain ⟨e, he⟩ := readParamTabs_error hparam
      cases hs : readSetTabs file set_list with
      | error e2 => exact ⟨e2, by simp [get_data, hs]⟩
      | ok dfS => exact ⟨e, by simp [get_data, hs, he]⟩
  refine ⟨hmain, fun out hok => ?_⟩
  obtain ⟨e, he⟩ := hmain
  rw [he] at hok
  exact Except.noConfusion hok

/-- Witness for C8: a spreadsheet with no tabs at all, one requested set
tab. -/
theorem claim_C8_witness :
    (∃ e, get_data [] ["ProductionPads"] [] = Except.error e)
    ∧ ∀ out, get_data [] ["ProductionPads"] [] ≠ Except.ok out :=
  claim_C8 [] ["ProductionPads"] [] (Or.inl ⟨"ProductionPads", by decide, rfl⟩)

/-- Claim C9: `create_model` has no side effects beyond returning the model:
threading the dictionary states through every access the source makes, the
two input mappings after the call are exactly the inputs, and the result is
the pure function `create_model` of the inputs alone (so each call yields an
independent model determined by its arguments). -/
theorem claim_C9 (dfS : DFSets) (dfP : DFParams) :
    (create_model_st dfS dfP).2 = (dfS, dfP)
    ∧ (create_model_st dfS dfP).1 = create_model dfS dfP := by
  cases h1 : dfS.lookup "ProductionPads" with
  | none =>
    exact ⟨by simp [create_model_st, dictRead, h1],
      by simp [create_model_st, create_model, dictRead, h1]⟩
  | some pads =>
  cases h2 : dfS.lookup "CompletionsPads" with
  | none =>
    exact ⟨by simp [create_model_st, dictRead, h1, h2],
      by simp [create_model_st, create_model, dictRead, h1, h2]⟩
  | some comps =>
  cases h3 : dfS.lookup "ProductionTanks" with
  | none =>
    exact ⟨by simp [create_model_st, dictRead, h1, h2, h3],
      by simp [create_model_st, create_model, dictRead, h1, h2, h3]⟩
  | some tanks =>
  cases h4 : dfS.lookup "SWDSites" with
  | none =>
    exact ⟨by simp [create_model_st, dictRead, h1, h2, h3, h4],
      by simp [create_model_st, create_model, dictRead, h1, h2, h3, h4]⟩
  | some swds =>
  cases h5 : dfS.lookup "TimePeriods" with
  | none =>
    exact ⟨by simp [create_model_st, dictRead, h1, h2, h3, h4, h5],
      by simp [create_model_st, create_model, dictRead, h1, h2, h3, h4, h5]⟩
  | some times =>
  cases h6 : dfP.lookup "DriveTimes" with
  | none =>
    exact ⟨by simp [create_model_st, dictRead, h1, h2, h3, h4, h5, h6],
      by simp [create_model_st, create_model, dictRead, h1, h2, h3, h4, h5, h6]⟩
  | some dt =>
  cases h7 : dfP.lookup "CompletionsDemand" with
  | none =>
    exact ⟨by simp [create_model_st, dictRead, h1, h2, h3, h4, h5, h6, h7],
      by simp [create_model_st, create_model, dictRead, h1, h2, h3, h4, h5, h6, h7]⟩
  | some cd =>
  cases h8 : dfP.lookup "FlowbackRates" with
  | none =>
    exact ⟨by simp [create_model_st, dictRead, h1, h2, h3, h4, h5, h6, h7, h8],
      by simp [create_model_st, create_model, dictRead, h1, h2, h3, h4, h5, h6, h7, h8]⟩
  | some fb =>
  cases h9 : dfP.lookup "ProductionRates" with
  | none =>
    exact ⟨by simp [create_model_st, dictRead, h1, h2, h3, h4, h5, h6, h7, h8, h9],
      by simp [create_model_st, create_model, dictRead, h1, h2, h3, h4, h5, h6, h7, h8, h9]⟩
  | some pr =>
  cases h10 : dfP.lookup "InitialDisposalCapacity" with
  | none =>
    exact ⟨by simp [create_model_st, dictRead, h1, h2, h3, h4, h5, h6, h7, h8, h9, h10],
      by simp [create_model_st, create_model, dictRead, h1, h2, h3, h4, h5, h6, h7, h8, h9, h10]⟩
  | some idc =>
  cases h11 : dfP.lookup "TwoIndexColumnParam" with
  | none =>
    exact ⟨by simp [create_model_st, dictRead, h1, h2, h3, h4, h5, h6, h7, h8, h9, h10, h11],
      by simp [create_model_st, create_model, dictRead, h1, h2, h3, h4, h5, h6, h7, h8, h9, h10, h11]⟩
  | some tic =>
  exact ⟨by simp [create_model_st, dictRead, h1, h2, h3, h4, h5, h6, h7, h8, h9, h10, h11],
    by simp [create_model_st, create_model, dictRead, h1, h2, h3, h4, h5, h6, h7, h8, h9, h10, h11]⟩

/-- Claim C10: in every model returned by `create_model`, no constraint
mentions `v_flowback_rates` or `v_production_rates`, so reassigning those
two variables to any non-negative values preserves satisfaction of every
constraint. -/
theorem claim_C10 (dfS : DFSets) (dfP : DFParams) (m : Model)
    (h : create_model dfS dfP = Except.ok m) :
    (∀ con ∈ m.constraints,
        con.lhs ≠ VarRef.flowback_rates ∧ con.lhs ≠ VarRef.production_rates)
    ∧ ∀ (σ : Assignment) (q1 q2 : ℤ), 0 ≤ q1 → 0 ≤ q2 → m.satisfiesAll σ →
        m.satisfiesAll (updateFP σ q1 q2) := by
  obtain ⟨pads, comps, tanks, swds, times, dt, cd, fb, pr, idc, tic, rfl⟩ :=
    create_model_ok_shape h
  have hlhs : ∀ con ∈ (buildModel pads comps tanks swds times dt cd fb pr idc tic).constraints,
      con.lhs ≠ VarRef.flowback_rates ∧ con.lhs ≠ VarRef.production_rates := by
    intro con hcon
    rcases mem_buildModel_constraints pads comps tanks swds times dt cd fb pr idc tic hcon
      with rfl | rfl | ⟨dd, rfl⟩ <;>
      exact ⟨fun hh => VarRef.noConfusion hh, fun hh => VarRef.noConfusion hh⟩
  refine ⟨hlhs, fun σ q1 q2 _ _ hsat con hcon => ?_⟩
  have hs := hsat con hcon
  rcases mem_buildModel_constraints pads comps tanks swds times dt cd fb pr idc tic hcon
    with rfl | rfl | ⟨dd, rfl⟩
  · exact hs
  · exact hs
  · exact hs

/-- Witness for C10 at the concrete scenario input. -/
theorem claim_C10_witness :
    (∀ con ∈ mC3.constraints,
        con.lhs ≠ VarRef.flowback_rates ∧ con.lhs ≠ VarRef.production_rates)
    ∧ mC3.satisfiesAll (updateFP disposalAssignment 1 2) :=
  ⟨(claim_C10 dfSetsC3 dfParamsC3 mC3 rfl).1,
    (claim_C10 dfSetsC3 dfParamsC3 mC3 rfl).2 disposalAssignment 1 2 (by decide) (by decide)
      (by decide)⟩
